import Mathlib

/-!
Shallow embedding of the analytics-hub core (anomaly detector, prediction
engine, correlation engine, circuit breaker) together with theorems that
settle the frozen specification claims.

Conventions of the embedding:
- f64 metric values are modelled as exact rationals; the only irrational
  step in the source, the square root inside the standard deviation, is
  modelled with Real.sqrt, so z-scores live in the reals.
- DateTime values are modelled as integer UTC seconds; Duration::minutes(i)
  becomes 60 * i and Duration::hours(h) becomes 3600 * h.
- VecDeque push_back / pop_front becomes list append / drop 1, the front of
  the list being the oldest element.
- The concurrent per-key maps become explicit state records; each engine
  operation is a pure function from state (plus arguments, plus the current
  time where the source reads the clock) to state and result.
-/

namespace AnalyticsHub

/-! ### Anomaly detector (src/analytics/anomaly.rs) -/

/-- Rolling window of recent values and timestamps for one metric, as kept
by the anomaly detector. -/
structure MetricBaseline where
  values : List ℚ
  timestamps : List ℤ
  max_size : ℕ
  deriving DecidableEq, Repr

/-- Fresh empty baseline with the given capacity. -/
def MetricBaseline.new (max_size : ℕ) : MetricBaseline :=
  { values := [], timestamps := [], max_size := max_size }

/-- Push a value and timestamp, evicting the oldest pair first when the
window already holds max_size elements. -/
def MetricBaseline.add_value (b : MetricBaseline) (value : ℚ) (timestamp : ℤ) :
    MetricBaseline :=
  if b.max_size ≤ b.values.length then
    { b with values := b.values.drop 1 ++ [value],
             timestamps := b.timestamps.drop 1 ++ [timestamp] }
  else
    { b with values := b.values ++ [value], timestamps := b.timestamps ++ [timestamp] }

/-- Mean of the window, zero when the window is empty. -/
def MetricBaseline.calculate_mean (b : MetricBaseline) : ℚ :=
  if b.values.isEmpty then 0
  else b.values.sum / (b.values.length : ℚ)

/-- Bessel-corrected sample standard deviation of the window, floored at
1/10000; returns 1 for windows of fewer than two points. -/
noncomputable def MetricBaseline.calculate_stddev (b : MetricBaseline) (mean : ℚ) : ℝ :=
  if b.values.length < 2 then 1
  else
    let variance : ℚ :=
      (b.values.map (fun v => (v - mean) * (v - mean))).sum / ((b.values.length - 1 : ℕ) : ℚ)
    max (Real.sqrt (variance : ℝ)) (1 / 10000)

/-- Classification of a detected anomaly. -/
inductive AnomalyType where
  | Spike
  | Drop
  | HighValue
  | LowValue
  | Pattern
  deriving DecidableEq, Repr

/-- Severity of a detected anomaly. -/
inductive AnomalySeverity where
  | Low
  | Medium
  | High
  | Critical
  deriving DecidableEq, Repr

/-- Record emitted for each detected anomaly. -/
structure Anomaly where
  metric_name : String
  timestamp : ℤ
  value : ℚ
  expected_value : ℚ
  deviation : ℝ
  anomaly_type : AnomalyType
  severity : AnomalySeverity

/-- Sensitivity in [0,1] maps to a z-score threshold, 3 minus twice the
sensitivity. -/
def get_threshold_for_sensitivity (sensitivity : ℚ) : ℚ :=
  3 - sensitivity * 2

/-- Classify an anomaly by comparing the new value with the last element of
the given window. -/
def classify_anomaly (value mean : ℚ) (baseline : MetricBaseline) : AnomalyType :=
  if value > mean then
    match baseline.values.getLast? with
    | some last_value => if value > last_value * (3 / 2) then .Spike else .HighValue
    | none => .HighValue
  else
    match baseline.values.getLast? with
    | some last_value => if value < last_value * (1 / 2) then .Drop else .LowValue
    | none => .LowValue

/-- Severity from the z-score. -/
noncomputable def calculate_severity (z_score : ℝ) : AnomalySeverity :=
  if z_score > 5 then .Critical
  else if z_score > 4 then .High
  else if z_score > 3 then .Medium
  else .Low

/-- Insert the value into the baseline, then report an anomaly when at
least ten points are held and the z-score exceeds the sensitivity
threshold.  Mirrors AnomalyDetector::check_anomaly for one metric. -/
noncomputable def check_anomaly (metric_name : String) (baseline : MetricBaseline)
    (value : ℚ) (timestamp : ℤ) (sensitivity : ℚ) :
    MetricBaseline × Option Anomaly :=
  let baseline := baseline.add_value value timestamp
  if baseline.values.length < 10 then (baseline, none)
  else
    let mean := baseline.calculate_mean
    let stddev := baseline.calculate_stddev mean
    let z_score := |(value : ℝ) - (mean : ℝ)| / stddev
    let threshold := get_threshold_for_sensitivity sensitivity
    if z_score > (threshold : ℝ) then
      (baseline,
        some { metric_name := metric_name, timestamp := timestamp, value := value,
               expected_value := mean, deviation := z_score,
               anomaly_type := classify_anomaly value mean baseline,
               severity := calculate_severity z_score })
    else (baseline, none)

/-! ### Prediction engine (src/analytics/prediction.rs) -/

/-- Rolling window of recent values and timestamps for one metric, as kept
by the prediction engine. -/
structure TimeSeriesData where
  values : List ℚ
  timestamps : List ℤ
  max_size : ℕ
  deriving DecidableEq, Repr

/-- Fresh empty time series with the given capacity. -/
def TimeSeriesData.new (max_size : ℕ) : TimeSeriesData :=
  { values := [], timestamps := [], max_size := max_size }

/-- Push a value and timestamp, evicting the oldest pair first when the
window already holds max_size elements. -/
def TimeSeriesData.add_point (ts : TimeSeriesData) (value : ℚ) (timestamp : ℤ) :
    TimeSeriesData :=
  if ts.max_size ≤ ts.values.length then
    { ts with values := ts.values.drop 1 ++ [value],
              timestamps := ts.timestamps.drop 1 ++ [timestamp] }
  else
    { ts with values := ts.values ++ [value], timestamps := ts.timestamps ++ [timestamp] }

/-- Drop leading pairs strictly older than the cutoff. -/
def TimeSeriesData.cleanup_before (ts : TimeSeriesData) (cutoff : ℤ) : TimeSeriesData :=
  let keep := (ts.timestamps.takeWhile (fun t => t < cutoff)).length
  { ts with values := ts.values.drop keep, timestamps := ts.timestamps.drop keep }

/-- One forecast step. -/
structure PredictionPoint where
  timestamp : ℤ
  value : ℚ
  confidence : ℚ
  lower_bound : ℚ
  upper_bound : ℚ
  deriving DecidableEq, Repr

/-- Least-squares linear trend over the history: slope and intercept. -/
def calculate_trend (values : List ℚ) : ℚ × ℚ :=
  let n : ℚ := (values.length : ℚ)
  let x_sum : ℚ := ((List.range values.length).map (fun i => (i : ℚ))).sum
  let y_sum : ℚ := values.sum
  let xy_sum : ℚ := (values.enum.map (fun p => (p.1 : ℚ) * p.2)).sum
  let x_squared_sum : ℚ := ((List.range values.length).map (fun i => (i : ℚ) ^ 2)).sum
  let slope := (n * xy_sum - x_sum * y_sum) / (n * x_squared_sum - x_sum ^ 2)
  let intercept := (y_sum - slope * x_sum) / n
  (slope, intercept)

/-- Simplified additive seasonal component: phase averages at period
min(24, n/2), centred by subtracting their mean. -/
def calculate_seasonality (values : List ℚ) : List ℚ :=
  let period := min 24 (values.length / 2)
  let seasonal := (List.range period).map (fun i =>
    let phase := (values.enum.filter (fun p => p.1 % period = i)).map Prod.snd
    if phase.length > 0 then phase.sum / (phase.length : ℚ) else 0)
  let mean := seasonal.sum / (seasonal.length : ℚ)
  seasonal.map (fun v => v - mean)

/-- Confidence decays linearly with the horizon, floored at one half. -/
def calculate_confidence (step total_steps : ℕ) : ℚ :=
  max (95 / 100 - 5 / 100 * ((step : ℚ) / (total_steps : ℚ))) (1 / 2)

/-- Trend plus seasonal projection for the requested number of steps. -/
def arima_forecast (ts_data : TimeSeriesData) (steps : ℕ) : List PredictionPoint :=
  let values := ts_data.values
  let last_timestamp := (ts_data.timestamps.getLast?).getD 0
  let trend := calculate_trend values
  let seasonal := calculate_seasonality values
  let n := values.length
  (List.range steps).map (fun k =>
    let i := k + 1
    let trend_value := trend.1 * ((n + i : ℕ) : ℚ) + trend.2
    let seasonal_value := seasonal.getD ((n + i) % seasonal.length) 0
    let predicted_value := trend_value + seasonal_value
    let confidence := calculate_confidence i steps
    { timestamp := last_timestamp + 60 * (i : ℤ),
      value := predicted_value,
      confidence := confidence,
      lower_bound := predicted_value * (1 - 1 / 10 * (1 - confidence)),
      upper_bound := predicted_value * (1 + 1 / 10 * (1 - confidence)) })

/-- Cached forecast with its creation time and time-to-live in seconds. -/
structure CachedPrediction where
  points : List PredictionPoint
  created_at : ℤ
  ttl_seconds : ℤ
  deriving DecidableEq, Repr

/-- A cached forecast is valid while its age is below its time-to-live. -/
def CachedPrediction.is_valid (c : CachedPrediction) (now : ℤ) : Bool :=
  now - c.created_at < c.ttl_seconds

/-- Errors surfaced by the prediction engine. UnknownMetric models the
"no time series data" failure and InsufficientData the insufficient or
empty history failures. -/
inductive PredictionError where
  | UnknownMetric
  | InsufficientData
  deriving DecidableEq, Repr

/-- Prediction engine state: per-metric histories and cached forecasts. -/
structure PredictionEngineState where
  time_series : String → Option TimeSeriesData
  predictions : String → Option CachedPrediction

/-- Engine state with no histories and no cached forecasts. -/
def PredictionEngineState.init : PredictionEngineState :=
  { time_series := fun _ => none, predictions := fun _ => none }

/-- Append a point to the history of one metric (creating it with the
configured capacity) and invalidate any cached forecast for that metric. -/
def add_data_point (s : PredictionEngineState) (metric_name : String)
    (value : ℚ) (timestamp : ℤ) (history_size : ℕ) : PredictionEngineState :=
  let ts := (s.time_series metric_name).getD (TimeSeriesData.new history_size)
  { time_series := fun m =>
      if m = metric_name then some (ts.add_point value timestamp) else s.time_series m,
    predictions := fun m =>
      if m = metric_name then none else s.predictions m }

/-- Trend plus seasonal forecast: serve a valid cached result if present,
otherwise require at least ten points, compute, and cache with a five
minute time-to-live. -/
def predict_arima (s : PredictionEngineState) (metric_name : String)
    (steps_ahead : ℕ) (now : ℤ) :
    PredictionEngineState × Except PredictionError (List PredictionPoint) :=
  let hit : Option (List PredictionPoint) :=
    match s.predictions metric_name with
    | some cached => if cached.is_valid now then some cached.points else none
    | none => none
  match hit with
  | some points => (s, .ok points)
  | none =>
    match s.time_series metric_name with
    | none => (s, .error .UnknownMetric)
    | some ts_data =>
      if ts_data.values.length < 10 then (s, .error .InsufficientData)
      else
        let preds := arima_forecast ts_data steps_ahead
        ({ s with predictions := fun m =>
            if m = metric_name then
              some { points := preds, created_at := now, ttl_seconds := 300 }
            else s.predictions m },
         .ok preds)

/-- Exponential smoothing forecast: flat projection of the final smoothed
level, bounds fixed at plus or minus ten percent. -/
def predict_exponential_smoothing (s : PredictionEngineState) (metric_name : String)
    (steps_ahead : ℕ) (alpha : ℚ) :
    PredictionEngineState × Except PredictionError (List PredictionPoint) :=
  match s.time_series metric_name with
  | none => (s, .error .UnknownMetric)
  | some ts_data =>
    match ts_data.values with
    | [] => (s, .error .InsufficientData)
    | v0 :: rest =>
      let last_timestamp := (ts_data.timestamps.getLast?).getD 0
      let smoothed := rest.foldl (fun sm v => alpha * v + (1 - alpha) * sm) v0
      (s, .ok ((List.range steps_ahead).map (fun k =>
        let i : ℕ := k + 1
        { timestamp := last_timestamp + 60 * (i : ℤ),
          value := smoothed,
          confidence := calculate_confidence i steps_ahead,
          lower_bound := smoothed * (9 / 10),
          upper_bound := smoothed * (11 / 10) })))

/-- Reachable prediction-engine states: the initial state closed under the
three public operations. -/
inductive PredictionReachable : PredictionEngineState → Prop where
  | init : PredictionReachable PredictionEngineState.init
  | add (s : PredictionEngineState) (m : String) (v : ℚ) (t : ℤ) (h : ℕ) :
      PredictionReachable s → PredictionReachable (add_data_point s m v t h)
  | arima (s : PredictionEngineState) (m : String) (k : ℕ) (now : ℤ) :
      PredictionReachable s → PredictionReachable (predict_arima s m k now).1
  | smooth (s : PredictionEngineState) (m : String) (k : ℕ) (a : ℚ) :
      PredictionReachable s → PredictionReachable (predict_exponential_smoothing s m k a).1

/-! ### Circuit breaker (src/resilience/circuit_breaker.rs) -/

/-- States of the circuit breaker. -/
inductive CircuitState where
  | Closed
  | Open
  | HalfOpen
  deriving DecidableEq, Repr

/-- Mutable state guarded by the circuit breaker lock. -/
structure CircuitBreakerState where
  state : CircuitState
  failure_count : ℕ
  success_count : ℕ
  last_failure_time : Option ℤ
  deriving DecidableEq, Repr

/-- Initial breaker state: closed with zeroed counters. -/
def CircuitBreakerState.new : CircuitBreakerState :=
  { state := .Closed, failure_count := 0, success_count := 0, last_failure_time := none }

/-- Record a successful operation. -/
def record_success (s : CircuitBreakerState) : CircuitBreakerState :=
  match s.state with
  | .HalfOpen =>
    let s := { s with success_count := s.success_count + 1 }
    if 3 ≤ s.success_count then
      { s with state := .Closed, failure_count := 0, success_count := 0,
               last_failure_time := none }
    else s
  | .Closed => { s with failure_count := 0 }
  | .Open => s

/-- Record a failed operation at the given instant. -/
def record_failure (failure_threshold : ℕ) (s : CircuitBreakerState) (now : ℤ) :
    CircuitBreakerState :=
  let s := { s with failure_count := s.failure_count + 1, last_failure_time := some now }
  match s.state with
  | .Closed =>
    if failure_threshold ≤ s.failure_count then { s with state := .Open } else s
  | .HalfOpen => { s with state := .Open, success_count := 0 }
  | .Open => s

/-- Fold a list of failure instants through record_failure. -/
def record_failures (failure_threshold : ℕ) (s : CircuitBreakerState)
    (times : List ℤ) : CircuitBreakerState :=
  times.foldl (record_failure failure_threshold) s

/-! ### Correlation engine (src/analytics/correlation.rs) -/

/-- Common envelope of an analytics event.  Uuid values are modelled as
naturals; the source module, event type and severity enumerations are
modelled by their discriminants. -/
structure EventCommon where
  event_id : ℕ
  timestamp : ℤ
  source_module : ℕ
  event_type : ℕ
  correlation_id : Option ℕ
  parent_event_id : Option ℕ
  severity : ℕ
  deriving DecidableEq, Repr

/-- An analytics event; the payload is irrelevant to the correlation
engine, which reads only the common envelope. -/
structure AnalyticsEvent where
  common : EventCommon
  deriving DecidableEq, Repr

/-- Accumulated temporal co-occurrence pattern for one ordered pair of
source modules. -/
structure TemporalPattern where
  occurrences : List ℤ
  time_diffs : List ℤ
  deriving DecidableEq, Repr

/-- Fresh empty pattern. -/
def TemporalPattern.new : TemporalPattern :=
  { occurrences := [], time_diffs := [] }

/-- Append one co-occurrence. -/
def TemporalPattern.add_occurrence (p : TemporalPattern) (timestamp : ℤ)
    (time_diff : ℤ) : TemporalPattern :=
  { occurrences := p.occurrences ++ [timestamp], time_diffs := p.time_diffs ++ [time_diff] }

/-- Graph node built from one event. -/
structure EventNode where
  event_id : ℕ
  timestamp : ℤ
  source_module : ℕ
  event_type : ℕ
  severity : ℕ
  deriving DecidableEq, Repr

/-- Kinds of correlation edges; the graph builder only emits Causal. -/
inductive CorrelationType where
  | Causal
  | Temporal
  deriving DecidableEq, Repr

/-- Directed edge of a correlation graph. -/
structure EventEdge where
  from_event_id : ℕ
  to_event_id : ℕ
  correlation_type : CorrelationType
  confidence : ℚ
  latency_ms : Option ℤ
  deriving DecidableEq, Repr

/-- Correlation graph returned by the graph builder.  The metadata map is
created empty and never filled, so it is omitted. -/
structure EventGraph where
  correlation_id : ℕ
  created_at : ℤ
  nodes : List EventNode
  edges : List EventEdge
  deriving DecidableEq, Repr

/-- Correlation engine state: the event store (association list keyed by
event id, kept in insertion order like the concurrent map it models), the
correlation-id membership sets, and the temporal patterns keyed by ordered
pairs of source modules. -/
structure CorrelationEngineState where
  events : List (ℕ × AnalyticsEvent)
  correlations : ℕ → List ℕ
  patterns : ℕ × ℕ → TemporalPattern

/-- Engine state with no events, no correlation sets and no patterns. -/
def CorrelationEngineState.init : CorrelationEngineState :=
  { events := [], correlations := fun _ => [], patterns := fun _ => TemporalPattern.new }

/-- Insert or replace the event stored under the given id. -/
def insertEvent (events : List (ℕ × AnalyticsEvent)) (event_id : ℕ)
    (e : AnalyticsEvent) : List (ℕ × AnalyticsEvent) :=
  if events.any (fun p => p.1 = event_id) then
    events.map (fun p => if p.1 = event_id then (event_id, e) else p)
  else events ++ [(event_id, e)]

/-- Look up the event stored under the given id. -/
def lookupEvent (events : List (ℕ × AnalyticsEvent)) (event_id : ℕ) :
    Option AnalyticsEvent :=
  (events.find? (fun p => p.1 = event_id)).map Prod.snd

/-- Scan every other retained event; those within the five minute window
record an occurrence in the pattern keyed by the two source modules. -/
def find_temporal_correlations (s : CorrelationEngineState) (e : AnalyticsEvent) :
    CorrelationEngineState :=
  { s with patterns := s.events.foldl (fun pats p =>
      if p.2.common.event_id = e.common.event_id then pats
      else
        let time_diff := |e.common.timestamp - p.2.common.timestamp|
        if time_diff ≤ 300 then
          let key := (e.common.source_module, p.2.common.source_module)
          fun k => if k = key then
              (pats key).add_occurrence e.common.timestamp time_diff
            else pats k
        else pats) s.patterns }

/-- Store the event, index it under its correlation id when present, and
fold it into the temporal patterns. -/
def add_event (s : CorrelationEngineState) (e : AnalyticsEvent) :
    CorrelationEngineState :=
  let event_id := e.common.event_id
  let s := { s with events := insertEvent s.events event_id e }
  let s :=
    match e.common.correlation_id with
    | some cid =>
      { s with correlations := fun c =>
          if c = cid then
            (if event_id ∈ s.correlations cid then s.correlations cid
             else s.correlations cid ++ [event_id])
          else s.correlations c }
    | none => s
  find_temporal_correlations s e

/-- Return the retained events whose ids belong to the correlation set. -/
def get_correlated_events (s : CorrelationEngineState) (correlation_id : ℕ) :
    List AnalyticsEvent :=
  (s.correlations correlation_id).filterMap (lookupEvent s.events)

/-- Build the correlation graph for one correlation id: none when no
events are retained for it, otherwise one node per event and one Causal
edge of confidence 1 per event carrying a parent reference. -/
def build_correlation_graph (s : CorrelationEngineState) (correlation_id : ℕ)
    (now : ℤ) : Option EventGraph :=
  let events := get_correlated_events s correlation_id
  if events.isEmpty then none
  else
    some { correlation_id := correlation_id,
           created_at := now,
           nodes := events.map (fun e =>
             { event_id := e.common.event_id, timestamp := e.common.timestamp,
               source_module := e.common.source_module,
               event_type := e.common.event_type,
               severity := e.common.severity }),
           edges := events.filterMap (fun e =>
             (e.common.parent_event_id).map (fun parent_id =>
               { from_event_id := parent_id, to_event_id := e.common.event_id,
                 correlation_type := .Causal, confidence := 1,
                 latency_ms := none })) }

/-- Evict retained events whose timestamp is not strictly newer than the
cutoff (now minus the retention in hours) and return the surviving state
together with the number of evicted events. -/
def cleanup_old_events (s : CorrelationEngineState) (retention_hours : ℤ)
    (now : ℤ) : CorrelationEngineState × ℕ :=
  let cutoff_time := now - 3600 * retention_hours
  let kept := s.events.filter (fun p => p.2.common.timestamp > cutoff_time)
  let removed := s.events.length - kept.length
  ({ s with events := kept }, removed)

/-! ### Bounded-window lemmas and claim C4 -/

/-- Fold a list of (value, timestamp) pairs into a baseline. -/
def MetricBaseline.insertAll (b : MetricBaseline) (l : List (ℚ × ℤ)) : MetricBaseline :=
  l.foldl (fun acc p => acc.add_value p.1 p.2) b

/-- Fold a list of (value, timestamp) pairs into a time series. -/
def TimeSeriesData.insertAll (ts : TimeSeriesData) (l : List (ℚ × ℤ)) : TimeSeriesData :=
  l.foldl (fun acc p => acc.add_point p.1 p.2) ts

lemma baseline_insertAll_spec (cap : ℕ) (hcap : 0 < cap) (l : List (ℚ × ℤ)) :
    MetricBaseline.insertAll (MetricBaseline.new cap) l =
      { values := (l.map Prod.fst).drop (l.length - cap),
        timestamps := (l.map Prod.snd).drop (l.length - cap),
        max_size := cap } := by
  induction l using List.reverseRecOn with
  | nil => simp [MetricBaseline.insertAll, MetricBaseline.new]
  | append_singleton l p ih =>
    have step : MetricBaseline.insertAll (MetricBaseline.new cap) (l ++ [p])
        = (MetricBaseline.insertAll (MetricBaseline.new cap) l).add_value p.1 p.2 := by
      simp [MetricBaseline.insertAll, List.foldl_append]
    rw [step, ih]
    rcases le_or_lt cap l.length with hle | hlt
    · have hcond : cap ≤ ((l.map Prod.fst).drop (l.length - cap)).length := by
        simp only [List.length_drop, List.length_map]
        omega
      rw [MetricBaseline.add_value, if_pos hcond]
      simp only [MetricBaseline.mk.injEq, List.map_append, List.length_append,
        List.map_cons, List.map_nil, List.length_cons, List.length_nil,
        List.drop_drop]
      refine ⟨?_, ?_, by trivial⟩
      · rw [List.drop_append_of_le_length (by simp; omega)]
        congr 2
        omega
      · rw [List.drop_append_of_le_length (by simp; omega)]
        congr 2
        omega
    · have hcond : ¬ cap ≤ ((l.map Prod.fst).drop (l.length - cap)).length := by
        simp only [List.length_drop, List.length_map]
        omega
      rw [MetricBaseline.add_value, if_neg hcond]
      have h0 : l.length - cap = 0 := by omega
      have h1 : l.length + 1 - cap = 0 := by omega
      simp [MetricBaseline.mk.injEq, List.map_append, h0, h1]

lemma timeseries_insertAll_spec (cap : ℕ) (hcap : 0 < cap) (l : List (ℚ × ℤ)) :
    TimeSeriesData.insertAll (TimeSeriesData.new cap) l =
      { values := (l.map Prod.fst).drop (l.length - cap),
        timestamps := (l.map Prod.snd).drop (l.length - cap),
        max_size := cap } := by
  induction l using List.reverseRecOn with
  | nil => simp [TimeSeriesData.insertAll, TimeSeriesData.new]
  | append_singleton l p ih =>
    have step : TimeSeriesData.insertAll (TimeSeriesData.new cap) (l ++ [p])
        = (TimeSeriesData.insertAll (TimeSeriesData.new cap) l).add_point p.1 p.2 := by
      simp [TimeSeriesData.insertAll, List.foldl_append]
    rw [step, ih]
    rcases le_or_lt cap l.length with hle | hlt
    · have hcond : cap ≤ ((l.map Prod.fst).drop (l.length - cap)).length := by
        simp only [List.length_drop, List.length_map]
        omega
      rw [TimeSeriesData.add_point, if_pos hcond]
      simp only [TimeSeriesData.mk.injEq, List.map_append, List.length_append,
        List.map_cons, List.map_nil, List.length_cons, List.length_nil,
        List.drop_drop]
      refine ⟨?_, ?_, by trivial⟩
      · rw [List.drop_append_of_le_length (by simp; omega)]
        congr 2
        omega
      · rw [List.drop_append_of_le_length (by simp; omega)]
        congr 2
        omega
    · have hcond : ¬ cap ≤ ((l.map Prod.fst).drop (l.length - cap)).length := by
        simp only [List.length_drop, List.length_map]
        omega
      rw [TimeSeriesData.add_point, if_neg hcond]
      have h0 : l.length - cap = 0 := by omega
      have h1 : l.length + 1 - cap = 0 := by omega
      simp [TimeSeriesData.mk.injEq, List.map_append, h0, h1]

/-- C4: for both the anomaly detector baseline and the prediction time
series, any sequence of insertions into a fresh window of positive
capacity leaves at most capacity many pairs; once more than capacity many
pairs have been inserted, the window holds exactly capacity many pairs,
namely the most recent values and timestamps in arrival order (oldest
evicted first). -/
theorem C4_bounded_window_invariant (cap : ℕ) (hcap : 0 < cap) (l : List (ℚ × ℤ)) :
    ((MetricBaseline.insertAll (MetricBaseline.new cap) l).values.length ≤ cap ∧
     (MetricBaseline.insertAll (MetricBaseline.new cap) l).timestamps.length ≤ cap ∧
     (cap < l.length →
       (MetricBaseline.insertAll (MetricBaseline.new cap) l).values.length = cap ∧
       (MetricBaseline.insertAll (MetricBaseline.new cap) l).values
         = (l.map Prod.fst).drop (l.length - cap) ∧
       (MetricBaseline.insertAll (MetricBaseline.new cap) l).timestamps
         = (l.map Prod.snd).drop (l.length - cap))) ∧
    ((TimeSeriesData.insertAll (TimeSeriesData.new cap) l).values.length ≤ cap ∧
     (TimeSeriesData.insertAll (TimeSeriesData.new cap) l).timestamps.length ≤ cap ∧
     (cap < l.length →
       (TimeSeriesData.insertAll (TimeSeriesData.new cap) l).values.length = cap ∧
       (TimeSeriesData.insertAll (TimeSeriesData.new cap) l).values
         = (l.map Prod.fst).drop (l.length - cap) ∧
       (TimeSeriesData.insertAll (TimeSeriesData.new cap) l).timestamps
         = (l.map Prod.snd).drop (l.length - cap))) := by
  rw [baseline_insertAll_spec cap hcap l, timeseries_insertAll_spec cap hcap l]
  simp only [List.length_drop, List.length_map]
  refine ⟨⟨by omega, by omega, fun h => ⟨by omega, by trivial, by trivial⟩⟩,
          ⟨by omega, by omega, fun h => ⟨by omega, by trivial, by trivial⟩⟩⟩

/-- Witness for C4 at capacity 2 with three insertions. -/
theorem C4_bounded_window_invariant_witness :
    0 < 2 ∧
    (((MetricBaseline.insertAll (MetricBaseline.new 2) [(1, 10), (2, 20), (3, 30)]).values.length ≤ 2 ∧
      (MetricBaseline.insertAll (MetricBaseline.new 2) [(1, 10), (2, 20), (3, 30)]).timestamps.length ≤ 2 ∧
      (2 < ([(1, 10), (2, 20), (3, 30)] : List (ℚ × ℤ)).length →
        (MetricBaseline.insertAll (MetricBaseline.new 2) [(1, 10), (2, 20), (3, 30)]).values.length = 2 ∧
        (MetricBaseline.insertAll (MetricBaseline.new 2) [(1, 10), (2, 20), (3, 30)]).values
          = (([(1, 10), (2, 20), (3, 30)] : List (ℚ × ℤ)).map Prod.fst).drop
              (([(1, 10), (2, 20), (3, 30)] : List (ℚ × ℤ)).length - 2) ∧
        (MetricBaseline.insertAll (MetricBaseline.new 2) [(1, 10), (2, 20), (3, 30)]).timestamps
          = (([(1, 10), (2, 20), (3, 30)] : List (ℚ × ℤ)).map Prod.snd).drop
              (([(1, 10), (2, 20), (3, 30)] : List (ℚ × ℤ)).length - 2))) ∧
     ((TimeSeriesData.insertAll (TimeSeriesData.new 2) [(1, 10), (2, 20), (3, 30)]).values.length ≤ 2 ∧
      (TimeSeriesData.insertAll (TimeSeriesData.new 2) [(1, 10), (2, 20), (3, 30)]).timestamps.length ≤ 2 ∧
      (2 < ([(1, 10), (2, 20), (3, 30)] : List (ℚ × ℤ)).length →
        (TimeSeriesData.insertAll (TimeSeriesData.new 2) [(1, 10), (2, 20), (3, 30)]).values.length = 2 ∧
        (TimeSeriesData.insertAll (TimeSeriesData.new 2) [(1, 10), (2, 20), (3, 30)]).values
          = (([(1, 10), (2, 20), (3, 30)] : List (ℚ × ℤ)).map Prod.fst).drop
              (([(1, 10), (2, 20), (3, 30)] : List (ℚ × ℤ)).length - 2) ∧
        (TimeSeriesData.insertAll (TimeSeriesData.new 2) [(1, 10), (2, 20), (3, 30)]).timestamps
          = (([(1, 10), (2, 20), (3, 30)] : List (ℚ × ℤ)).map Prod.snd).drop
              (([(1, 10), (2, 20), (3, 30)] : List (ℚ × ℤ)).length - 2)))) :=
  ⟨by decide, C4_bounded_window_invariant 2 (by decide) [(1, 10), (2, 20), (3, 30)]⟩

/-! ### Circuit breaker lemmas and claim C7 -/

lemma record_failures_open (T : ℕ) (l : List ℤ) (s : CircuitBreakerState)
    (h : s.state = .Open) : (record_failures T s l).state = .Open := by
  induction l generalizing s with
  | nil => simpa [record_failures]
  | cons t rest ih =>
    rw [record_failures, List.foldl_cons]
    apply ih
    rcases s with ⟨st, fc, sc, lf⟩
    simp only at h
    subst h
    simp [record_failure]

lemma record_failures_closed_lt (T : ℕ) (l : List ℤ) (s : CircuitBreakerState)
    (hstate : s.state = .Closed) (h : s.failure_count + l.length < T) :
    (record_failures T s l).state = .Closed ∧
    (record_failures T s l).failure_count = s.failure_count + l.length := by
  induction l generalizing s with
  | nil => simpa [record_failures]
  | cons t rest ih =>
    rw [record_failures, List.foldl_cons]
    rcases s with ⟨st, fc, sc, lf⟩
    simp only at hstate
    subst hstate
    simp only [List.length_cons] at h
    have hlt : ¬ T ≤ fc + 1 := by omega
    have hstep : record_failure T ⟨.Closed, fc, sc, lf⟩ t
        = ⟨.Closed, fc + 1, sc, some t⟩ := by
      simp [record_failure, hlt]
    rw [hstep]
    have := ih ⟨.Closed, fc + 1, sc, some t⟩ rfl (by simp; omega)
    rw [record_failures] at this
    refine ⟨this.1, ?_⟩
    rw [this.2]
    simp
    omega

lemma record_failures_closed_opens (T : ℕ) (l : List ℤ) (s : CircuitBreakerState)
    (hstate : s.state = .Closed) (hlen : 1 ≤ l.length)
    (h : s.failure_count + l.length = T) :
    (record_failures T s l).state = .Open := by
  induction l generalizing s with
  | nil => simp at hlen
  | cons t rest ih =>
    rw [record_failures, List.foldl_cons]
    rcases s with ⟨st, fc, sc, lf⟩
    simp only at hstate
    subst hstate
    simp only [List.length_cons] at h
    rcases Nat.eq_zero_or_pos rest.length with hr | hr
    · have hT : T ≤ fc + 1 := by omega
      have hstep : record_failure T ⟨.Closed, fc, sc, lf⟩ t
          = ⟨.Open, fc + 1, sc, some t⟩ := by
        simp [record_failure, hT]
      rw [hstep]
      exact record_failures_open T rest _ rfl
    · have hlt : ¬ T ≤ fc + 1 := by omega
      have hstep : record_failure T ⟨.Closed, fc, sc, lf⟩ t
          = ⟨.Closed, fc + 1, sc, some t⟩ := by
        simp [record_failure, hlt]
      rw [hstep]
      exact ih ⟨.Closed, fc + 1, sc, some t⟩ rfl hr (by simp; omega)

/-- C7: from the Closed state with a zero failure counter, exactly
failure_threshold consecutive failures open the breaker, any fewer leave it
Closed with the counter equal to the number of failures, a success while
Closed only zeroes the counter, and two failure runs each shorter than the
threshold separated by one success leave the breaker Closed. -/
theorem C7_circuit_breaker_closed (T : ℕ) (hT : 0 < T) (s : CircuitBreakerState)
    (hstate : s.state = .Closed) (hcount : s.failure_count = 0) (l : List ℤ) :
    (l.length < T →
      (record_failures T s l).state = .Closed ∧
      (record_failures T s l).failure_count = l.length) ∧
    (l.length = T → (record_failures T s l).state = .Open) ∧
    (record_success s = { s with failure_count := 0 }) ∧
    (∀ l2 : List ℤ, l.length < T → l2.length < T →
      (record_failures T (record_success (record_failures T s l)) l2).state = .Closed) := by
  have hsucc : ∀ s2 : CircuitBreakerState, s2.state = .Closed →
      record_success s2 = { s2 with failure_count := 0 } := by
    intro s2 h2
    rcases s2 with ⟨st, fc, sc, lf⟩
    simp only at h2
    subst h2
    simp [record_success]
  refine ⟨?_, ?_, hsucc s hstate, ?_⟩
  · intro hlt
    have := record_failures_closed_lt T l s hstate (by omega)
    rw [hcount] at this
    simpa using this
  · intro heq
    exact record_failures_closed_opens T l s hstate (by omega) (by omega)
  · intro l2 h1 h2
    have hrun := record_failures_closed_lt T l s hstate (by omega)
    have hs2 := hsucc _ hrun.1
    rw [hs2]
    have : ({ record_failures T s l with failure_count := 0 } :
        CircuitBreakerState).state = .Closed := by
      simpa using hrun.1
    exact (record_failures_closed_lt T l2 _ this (by simpa using h2)).1

/-- Witness for C7 with threshold 2, two failures, and a success-separated
pair of single failures. -/
theorem C7_circuit_breaker_closed_witness :
    0 < 2 ∧ CircuitBreakerState.new.state = .Closed ∧
    CircuitBreakerState.new.failure_count = 0 ∧
    ((([(0 : ℤ), 1] : List ℤ).length < 2 →
      (record_failures 2 CircuitBreakerState.new [(0 : ℤ), 1]).state = .Closed ∧
      (record_failures 2 CircuitBreakerState.new [(0 : ℤ), 1]).failure_count
        = ([(0 : ℤ), 1] : List ℤ).length) ∧
     (([(0 : ℤ), 1] : List ℤ).length = 2 →
      (record_failures 2 CircuitBreakerState.new [(0 : ℤ), 1]).state = .Open) ∧
     (record_success CircuitBreakerState.new
        = { CircuitBreakerState.new with failure_count := 0 }) ∧
     (∀ l2 : List ℤ, ([(0 : ℤ), 1] : List ℤ).length < 2 → l2.length < 2 →
      (record_failures 2 (record_success
        (record_failures 2 CircuitBreakerState.new [(0 : ℤ), 1])) l2).state = .Closed)) :=
  ⟨by decide, by decide, by decide,
    C7_circuit_breaker_closed 2 (by decide) CircuitBreakerState.new rfl rfl [(0 : ℤ), 1]⟩

/-! ### Correlation engine lemmas and claims C8, C9, C2 -/

lemma find?_replace_self (events : List (ℕ × AnalyticsEvent)) (i : ℕ) (e : AnalyticsEvent)
    (h : events.any (fun p => p.1 = i) = true) :
    (events.map (fun p => if p.1 = i then (i, e) else p)).find? (fun p => p.1 = i)
      = some (i, e) := by
  induction events with
  | nil => simp at h
  | cons hd tl ih =>
    by_cases hh : hd.1 = i
    · simp [hh]
    · have h2 : tl.any (fun p => p.1 = i) = true := by
        simpa [List.any_cons, hh] using h
      simpa [hh] using ih h2

lemma find?_replace_ne (events : List (ℕ × AnalyticsEvent)) (i j : ℕ) (e : AnalyticsEvent)
    (hji : j ≠ i) :
    (events.map (fun p => if p.1 = i then (i, e) else p)).find? (fun p => p.1 = j)
      = events.find? (fun p => p.1 = j) := by
  induction events with
  | nil => simp
  | cons hd tl ih =>
    by_cases hh : hd.1 = i
    · have h1 : ((hd :: tl).map (fun p => if p.1 = i then (i, e) else p))
          = (i, e) :: tl.map (fun p => if p.1 = i then (i, e) else p) := by
        simp [hh]
      rw [h1, List.find?_cons_of_neg _ (by simpa using Ne.symm hji),
        List.find?_cons_of_neg _ (by rw [hh]; simpa using Ne.symm hji)]
      exact ih
    · have h1 : ((hd :: tl).map (fun p => if p.1 = i then (i, e) else p))
          = hd :: tl.map (fun p => if p.1 = i then (i, e) else p) := by
        simp [hh]
      rw [h1]
      by_cases hj2 : hd.1 = j
      · rw [List.find?_cons_of_pos _ (by simpa using hj2),
          List.find?_cons_of_pos _ (by simpa using hj2)]
      · rw [List.find?_cons_of_neg _ (by simpa using hj2),
          List.find?_cons_of_neg _ (by simpa using hj2)]
        exact ih

lemma lookupEvent_insertEvent_self (events : List (ℕ × AnalyticsEvent)) (i : ℕ)
    (e : AnalyticsEvent) : lookupEvent (insertEvent events i e) i = some e := by
  unfold insertEvent lookupEvent
  by_cases h : events.any (fun p => p.1 = i)
  · rw [if_pos h, find?_replace_self events i e h]
    rfl
  · rw [if_neg h, List.find?_append]
    have hnone : events.find? (fun p => p.1 = i) = none := by
      rw [List.find?_eq_none]
      intro x hx
      have := (List.any_eq_false.mp (Bool.of_not_eq_true h)) x hx
      simpa using this
    simp [hnone]

lemma lookupEvent_insertEvent_ne (events : List (ℕ × AnalyticsEvent)) (i j : ℕ)
    (e : AnalyticsEvent) (hji : j ≠ i) :
    lookupEvent (insertEvent events i e) j = lookupEvent events j := by
  unfold insertEvent lookupEvent
  by_cases h : events.any (fun p => p.1 = i)
  · rw [if_pos h, find?_replace_ne events i j e hji]
  · rw [if_neg h, List.find?_append]
    simp [Ne.symm hji]

lemma add_event_events (s : CorrelationEngineState) (e : AnalyticsEvent) :
    (add_event s e).events = insertEvent s.events e.common.event_id e := by
  simp only [add_event, find_temporal_correlations]
  cases e.common.correlation_id <;> rfl

lemma add_event_correlations_cid (s : CorrelationEngineState) (e : AnalyticsEvent)
    (cid : ℕ) (hc : e.common.correlation_id = some cid)
    (hni : e.common.event_id ∉ s.correlations cid) :
    (add_event s e).correlations cid = s.correlations cid ++ [e.common.event_id] := by
  simp only [add_event, find_temporal_correlations, hc]
  simp [hni]

lemma fold_add_event_get_correlated (cid : ℕ) (l : List AnalyticsEvent) :
    ∀ (s : CorrelationEngineState),
      (l.map (fun e => e.common.event_id)).Nodup →
      (∀ e ∈ l, e.common.correlation_id = some cid) →
      (∀ e ∈ l, e.common.event_id ∉ s.correlations cid) →
      get_correlated_events (l.foldl add_event s) cid
        = get_correlated_events s cid ++ l := by
  induction l with
  | nil => intro s _ _ _; simp
  | cons e rest ih =>
    intro s hnodup hcid hfresh
    rw [List.foldl_cons]
    have hec : e.common.correlation_id = some cid := hcid e (by simp)
    have hef : e.common.event_id ∉ s.correlations cid := hfresh e (by simp)
    have hcorr := add_event_correlations_cid s e cid hec hef
    have hev := add_event_events s e
    have hpair : (∀ x ∈ rest, ¬ x.common.event_id = e.common.event_id) ∧
        (rest.map (fun x => x.common.event_id)).Nodup := by
      simpa using hnodup
    have hid_ne : ∀ x ∈ rest, x.common.event_id ≠ e.common.event_id := hpair.1
    have hfresh2 : ∀ x ∈ rest, x.common.event_id ∉ (add_event s e).correlations cid := by
      intro x hx
      rw [hcorr]
      simp only [List.mem_append, List.mem_singleton]
      push_neg
      exact ⟨hfresh x (by simp [hx]), hid_ne x hx⟩
    rw [ih (add_event s e) hpair.2 (fun x hx => hcid x (by simp [hx])) hfresh2]
    have hstep : get_correlated_events (add_event s e) cid
        = get_correlated_events s cid ++ [e] := by
      unfold get_correlated_events
      rw [hcorr, hev, List.filterMap_append]
      congr 1
      · apply List.filterMap_congr
        intro a ha
        apply lookupEvent_insertEvent_ne
        intro hEq
        rw [hEq] at ha
        exact hef ha
      · simp [lookupEvent_insertEvent_self]
    rw [hstep, List.append_assoc]
    simp

/-- C8: adding events with pairwise-distinct ids that all carry the same
correlation id, starting from a state whose membership set for that id is
empty, makes get_correlated return exactly those events: the returned list
is a permutation of the added events, and its event ids are a permutation
of the added ids. -/
theorem C8_correlation_round_trip (l : List AnalyticsEvent) (s : CorrelationEngineState)
    (cid : ℕ) (hnodup : (l.map (fun e => e.common.event_id)).Nodup)
    (hcid : ∀ e ∈ l, e.common.correlation_id = some cid)
    (hempty : s.correlations cid = []) :
    (get_correlated_events (l.foldl add_event s) cid).Perm l ∧
    ((get_correlated_events (l.foldl add_event s) cid).map
       (fun e => e.common.event_id)).Perm (l.map (fun e => e.common.event_id)) := by
  have hfresh : ∀ e ∈ l, e.common.event_id ∉ s.correlations cid := by
    intro e he
    rw [hempty]
    simp
  have h := fold_add_event_get_correlated cid l s hnodup hcid hfresh
  have hpre : get_correlated_events s cid = [] := by
    unfold get_correlated_events
    rw [hempty]
    rfl
  rw [hpre, List.nil_append] at h
  rw [h]
  exact ⟨List.Perm.refl l, List.Perm.refl _⟩

/-- Witness for C8: two events with ids 1 and 2 sharing correlation id 7,
added to the empty engine. -/
theorem C8_correlation_round_trip_witness :
    ((([⟨⟨1, 0, 0, 0, some 7, none, 0⟩⟩, ⟨⟨2, 5, 1, 0, some 7, none, 0⟩⟩] :
        List AnalyticsEvent).map (fun e => e.common.event_id)).Nodup) ∧
    (get_correlated_events
      (([⟨⟨1, 0, 0, 0, some 7, none, 0⟩⟩, ⟨⟨2, 5, 1, 0, some 7, none, 0⟩⟩] :
        List AnalyticsEvent).foldl add_event CorrelationEngineState.init) 7).Perm
      [⟨⟨1, 0, 0, 0, some 7, none, 0⟩⟩, ⟨⟨2, 5, 1, 0, some 7, none, 0⟩⟩] :=
  ⟨by decide,
   (C8_correlation_round_trip
      [⟨⟨1, 0, 0, 0, some 7, none, 0⟩⟩, ⟨⟨2, 5, 1, 0, some 7, none, 0⟩⟩]
      CorrelationEngineState.init 7 (by decide) (by decide) rfl).1⟩

/-- C9 (amended): cleanup evicts exactly the retained events whose
timestamp is at or before the cutoff (now minus retention hours, not only
those strictly older), returns the number evicted, and leaves the
correlation-id membership map and the temporal-pattern accumulators
completely unchanged. -/
theorem C9_cleanup_frame_effect (s : CorrelationEngineState) (retention_hours now : ℤ) :
    (cleanup_old_events s retention_hours now).1.events
      = s.events.filter (fun p => p.2.common.timestamp > now - 3600 * retention_hours) ∧
    (cleanup_old_events s retention_hours now).2
      = (s.events.filter
          (fun p => p.2.common.timestamp ≤ now - 3600 * retention_hours)).length ∧
    (cleanup_old_events s retention_hours now).1.correlations = s.correlations ∧
    (cleanup_old_events s retention_hours now).1.patterns = s.patterns := by
  refine ⟨rfl, ?_, rfl, rfl⟩
  have hsplit := s.events.length_eq_length_filter_add
    (fun p => p.2.common.timestamp > now - 3600 * retention_hours)
  have hcongr : s.events.filter
      (fun p => !(decide (p.2.common.timestamp > now - 3600 * retention_hours)))
        = s.events.filter (fun p => p.2.common.timestamp ≤ now - 3600 * retention_hours) := by
    apply List.filter_congr
    intro a _
    rcases le_or_lt a.2.common.timestamp (now - 3600 * retention_hours) with h | h
    · simp [h, not_lt.mpr h]
    · simp [h, not_le.mpr h]
  simp only [cleanup_old_events]
  rw [← hcongr]
  omega

/-- Counterexample for C9: an event whose timestamp equals the cutoff
exactly (timestamp 0, cutoff now - 3600h = 0) is not strictly older than
the cutoff, yet the cleanup call evicts it and reports one eviction. -/
theorem C9_cleanup_boundary_counterexample :
    (cleanup_old_events
        (add_event CorrelationEngineState.init ⟨⟨1, 0, 0, 0, none, none, 0⟩⟩) 1 3600).2 = 1 ∧
    (cleanup_old_events
        (add_event CorrelationEngineState.init ⟨⟨1, 0, 0, 0, none, none, 0⟩⟩) 1 3600).1.events
      = [] ∧
    ¬ ((0 : ℤ) < 3600 - 3600 * 1) := by
  refine ⟨?_, ?_, by decide⟩ <;> decide

lemma build_correlation_graph_some (s : CorrelationEngineState) (cid : ℕ) (now : ℤ)
    (g : EventGraph) (h : build_correlation_graph s cid now = some g) :
    g.edges = (get_correlated_events s cid).filterMap (fun e =>
      (e.common.parent_event_id).map (fun parent_id =>
        ({ from_event_id := parent_id, to_event_id := e.common.event_id,
           correlation_type := .Causal, confidence := 1,
           latency_ms := none } : EventEdge))) ∧
    g.nodes.length = (get_correlated_events s cid).length := by
  unfold build_correlation_graph at h
  by_cases he : (get_correlated_events s cid).isEmpty
  · rw [if_pos he] at h
    exact absurd h (by simp)
  · rw [if_neg he] at h
    have hg := (Option.some_injective _ h).symm
    subst hg
    exact ⟨rfl, by simp⟩

lemma length_filterMap_parent (l : List AnalyticsEvent)
    (f : AnalyticsEvent → ℕ → EventEdge) :
    (l.filterMap (fun e => (e.common.parent_event_id).map (f e))).length
      = (l.filter (fun e => (e.common.parent_event_id).isSome)).length := by
  induction l with
  | nil => rfl
  | cons e rest ih =>
    cases hp : e.common.parent_event_id <;>
      simp [List.filterMap_cons, List.filter_cons, hp, ih]

/-- C2 (amended): in the graph built for a correlation id with retained
events there is one directed Causal edge with confidence 1 per retained
correlated event that carries a parent_event_id, from that parent id to
the event id, whether or not the parent id belongs to the correlated set;
a dangling parent reference therefore still produces an inbound edge. -/
theorem C2_graph_edges (s : CorrelationEngineState) (cid : ℕ) (now : ℤ)
    (g : EventGraph) (h : build_correlation_graph s cid now = some g) :
    (∀ e ∈ get_correlated_events s cid, ∀ pid, e.common.parent_event_id = some pid →
      ({ from_event_id := pid, to_event_id := e.common.event_id,
         correlation_type := .Causal, confidence := 1,
         latency_ms := none } : EventEdge) ∈ g.edges) ∧
    (∀ ed ∈ g.edges, ∃ e, e ∈ get_correlated_events s cid ∧
      e.common.parent_event_id = some ed.from_event_id ∧
      ed.to_event_id = e.common.event_id ∧
      ed.correlation_type = .Causal ∧ ed.confidence = 1) ∧
    g.edges.length = ((get_correlated_events s cid).filter
      (fun e => (e.common.parent_event_id).isSome)).length ∧
    g.nodes.length = (get_correlated_events s cid).length := by
  obtain ⟨hedges, hnodes⟩ := build_correlation_graph_some s cid now g h
  refine ⟨?_, ?_, ?_, hnodes⟩
  · intro e he pid hpid
    rw [hedges]
    exact List.mem_filterMap.mpr ⟨e, he, by rw [hpid]; rfl⟩
  · intro ed hed
    rw [hedges] at hed
    obtain ⟨e, he, hfe⟩ := List.mem_filterMap.mp hed
    cases hp : e.common.parent_event_id with
    | none => rw [hp] at hfe; exact absurd hfe (by simp)
    | some pid =>
      rw [hp] at hfe
      simp only [Option.map_some'] at hfe
      obtain rfl := Option.some_injective _ hfe
      exact ⟨e, he, by rw [hp], rfl, rfl, rfl⟩
  · rw [hedges, length_filterMap_parent]

/-- Counterexample for C2: a single retained event (id 1) whose parent id
99 is not among the correlated events still receives an inbound Causal
edge from 99 in the built graph. -/
theorem C2_dangling_edge_counterexample :
    ((get_correlated_events
        (add_event CorrelationEngineState.init ⟨⟨1, 0, 0, 0, some 7, some 99, 0⟩⟩) 7).map
      (fun e => e.common.event_id)) = [1] ∧
    (build_correlation_graph
        (add_event CorrelationEngineState.init ⟨⟨1, 0, 0, 0, some 7, some 99, 0⟩⟩) 7 0).map
      EventGraph.edges
      = some [{ from_event_id := 99, to_event_id := 1, correlation_type := .Causal,
                confidence := 1, latency_ms := none }] := by
  refine ⟨?_, ?_⟩ <;> decide

/-- Witness for C2 at the same concrete engine state, with the graph made
explicit. -/
theorem C2_graph_edges_witness :
    (∀ e ∈ get_correlated_events
        (add_event CorrelationEngineState.init ⟨⟨1, 0, 0, 0, some 7, some 99, 0⟩⟩) 7,
      ∀ pid, e.common.parent_event_id = some pid →
      ({ from_event_id := pid, to_event_id := e.common.event_id,
         correlation_type := .Causal, confidence := 1,
         latency_ms := none } : EventEdge) ∈
        (EventGraph.mk 7 0 [⟨1, 0, 0, 0, 0⟩]
          [⟨99, 1, .Causal, 1, none⟩]).edges) ∧
    (∀ ed ∈ (EventGraph.mk 7 0 [⟨1, 0, 0, 0, 0⟩] [⟨99, 1, .Causal, 1, none⟩]).edges,
      ∃ e, e ∈ get_correlated_events
        (add_event CorrelationEngineState.init ⟨⟨1, 0, 0, 0, some 7, some 99, 0⟩⟩) 7 ∧
      e.common.parent_event_id = some ed.from_event_id ∧
      ed.to_event_id = e.common.event_id ∧
      ed.correlation_type = .Causal ∧ ed.confidence = 1) ∧
    (EventGraph.mk 7 0 [⟨1, 0, 0, 0, 0⟩] [⟨99, 1, .Causal, 1, none⟩]).edges.length
      = ((get_correlated_events
          (add_event CorrelationEngineState.init ⟨⟨1, 0, 0, 0, some 7, some 99, 0⟩⟩) 7).filter
        (fun e => (e.common.parent_event_id).isSome)).length ∧
    (EventGraph.mk 7 0 [⟨1, 0, 0, 0, 0⟩] [⟨99, 1, .Causal, 1, none⟩]).nodes.length
      = (get_correlated_events
          (add_event CorrelationEngineState.init ⟨⟨1, 0, 0, 0, some 7, some 99, 0⟩⟩) 7).length :=
  C2_graph_edges
    (add_event CorrelationEngineState.init ⟨⟨1, 0, 0, 0, some 7, some 99, 0⟩⟩) 7 0
    (EventGraph.mk 7 0 [⟨1, 0, 0, 0, 0⟩] [⟨99, 1, .Causal, 1, none⟩]) (by decide)

/-! ### Prediction engine lemmas and claims C5, C6, C10 -/

/-- True exactly on successful results. -/
def isOkResult {ε α : Type} : Except ε α → Bool
  | .ok _ => true
  | .error _ => false

instance {ε α : Type} [DecidableEq ε] [DecidableEq α] : DecidableEq (Except ε α) := by
  intro x y
  cases x <;> cases y
  case error.error a b =>
    exact if h : a = b then isTrue (congrArg _ h) else isFalse (fun hc => h (Except.error.inj hc))
  case ok.ok a b =>
    exact if h : a = b then isTrue (congrArg _ h) else isFalse (fun hc => h (Except.ok.inj hc))
  case error.ok a b => exact isFalse (fun hc => Except.noConfusion hc)
  case ok.error a b => exact isFalse (fun hc => Except.noConfusion hc)

lemma smoothing_fst (s : PredictionEngineState) (m : String) (k : ℕ) (alpha : ℚ) :
    (predict_exponential_smoothing s m k alpha).1 = s := by
  rcases hts : s.time_series m with _ | ts
  · simp [predict_exponential_smoothing, hts]
  · rcases hv : ts.values with _ | ⟨v0, r⟩ <;>
      simp [predict_exponential_smoothing, hts, hv]

lemma predict_arima_fst_cases (s : PredictionEngineState) (m : String) (k : ℕ)
    (now : ℤ) :
    (predict_arima s m k now).1 = s ∨
    ∃ ts, s.time_series m = some ts ∧ 10 ≤ ts.values.length ∧
      (predict_arima s m k now).1 =
        { s with predictions := fun m2 =>
            if m2 = m then some ⟨arima_forecast ts k, now, 300⟩
            else s.predictions m2 } := by
  rcases hp : s.predictions m with _ | cached
  · rcases hts : s.time_series m with _ | ts
    · left; simp [predict_arima, hp, hts]
    · by_cases hlen : ts.values.length < 10
      · left; simp [predict_arima, hp, hts, hlen]
      · right
        exact ⟨ts, rfl, by omega, by simp [predict_arima, hp, hts, hlen]⟩
  · cases hv : cached.is_valid now
    · rcases hts : s.time_series m with _ | ts
      · left; simp [predict_arima, hp, hv, hts]
      · by_cases hlen : ts.values.length < 10
        · left; simp [predict_arima, hp, hv, hts, hlen]
        · right
          exact ⟨ts, rfl, by omega, by simp [predict_arima, hp, hv, hts, hlen]⟩
    · left; simp [predict_arima, hp, hv]

lemma reachable_predictions_none (s : PredictionEngineState)
    (h : PredictionReachable s) :
    ∀ m2, s.time_series m2 = none → s.predictions m2 = none := by
  induction h with
  | init => intro m2 _; rfl
  | add s m v t hsize hr ih =>
    intro m2 hts
    simp only [add_data_point] at hts ⊢
    by_cases he : m2 = m
    · rw [if_pos he] at hts
      exact absurd hts (by simp)
    · rw [if_neg he] at hts ⊢
      exact ih m2 hts
  | arima s m k now hr ih =>
    intro m2 hts
    rcases predict_arima_fst_cases s m k now with hcase | ⟨ts, hts2, hlen, hcase⟩
    · rw [hcase] at hts ⊢
      exact ih m2 hts
    · rw [hcase] at hts ⊢
      simp only at hts ⊢
      by_cases he : m2 = m
      · subst he
        rw [hts] at hts2
        exact absurd hts2 (by simp)
      · rw [if_neg he]
        exact ih m2 hts
  | smooth s m k a hr ih =>
    intro m2 hts
    rw [smoothing_fst] at hts ⊢
    exact ih m2 hts

/-- C5: with no history at all (on any reachable engine state) both
forecast methods fail with UnknownMetric; with at least one but fewer than
ten points and no cached result, the trend+seasonal forecast fails with
InsufficientData while the exponential smoothing forecast succeeds, and
with a single held point every smoothing forecast step carries that point
as its value with bounds at plus and minus ten percent of the smoothed
level. -/
theorem C5_minimum_samples (s : PredictionEngineState) (m : String) (k : ℕ)
    (now : ℤ) (alpha : ℚ) :
    (PredictionReachable s → s.time_series m = none →
      (predict_arima s m k now).2 = .error .UnknownMetric ∧
      (predict_exponential_smoothing s m k alpha).2 = .error .UnknownMetric) ∧
    (∀ ts, s.time_series m = some ts → 1 ≤ ts.values.length →
      ts.values.length < 10 → s.predictions m = none →
      (predict_arima s m k now).2 = .error .InsufficientData) ∧
    (∀ ts, s.time_series m = some ts → 1 ≤ ts.values.length →
      isOkResult (predict_exponential_smoothing s m k alpha).2 = true) ∧
    (∀ ts v, s.time_series m = some ts → ts.values = [v] →
      ∀ pts, (predict_exponential_smoothing s m k alpha).2 = .ok pts →
        pts.length = k ∧
        ∀ p ∈ pts, p.value = v ∧ p.lower_bound = v * (9 / 10) ∧
          p.upper_bound = v * (11 / 10)) := by
  refine ⟨?_, ?_, ?_, ?_⟩
  · intro hr hts
    have hp := reachable_predictions_none s hr m hts
    exact ⟨by simp [predict_arima, hp, hts],
           by simp [predict_exponential_smoothing, hts]⟩
  · intro ts hts h1 hlen hp
    simp [predict_arima, hp, hts, hlen]
  · intro ts hts h1
    rcases hv : ts.values with _ | ⟨v0, r⟩
    · rw [hv] at h1; simp at h1
    · simp [predict_exponential_smoothing, hts, hv, isOkResult]
  · intro ts v hts hv pts hpts
    have : (predict_exponential_smoothing s m k alpha).2
        = .ok ((List.range k).map (fun j =>
            { timestamp := (ts.timestamps.getLast?).getD 0 + 60 * ((j + 1 : ℕ) : ℤ),
              value := v,
              confidence := calculate_confidence (j + 1) k,
              lower_bound := v * (9 / 10),
              upper_bound := v * (11 / 10) })) := by
      simp [predict_exponential_smoothing, hts, hv]
    rw [this] at hpts
    have hpts2 := (Except.ok.inj hpts).symm
    subst hpts2
    constructor
    · simp
    · intro p hp
      obtain ⟨j, hj, rfl⟩ := List.mem_map.mp hp
      exact ⟨rfl, rfl, rfl⟩

/-- Witness for C5: the empty engine has no history for metric m, and the
engine after one insertion of value 5 holds a single point. -/
theorem C5_minimum_samples_witness :
    (predict_arima PredictionEngineState.init "m" 3 0).2 = .error .UnknownMetric ∧
    (predict_exponential_smoothing PredictionEngineState.init "m" 3 (1 / 2)).2
      = .error .UnknownMetric ∧
    (predict_arima (add_data_point PredictionEngineState.init "m" 5 0 100) "m" 3 0).2
      = .error .InsufficientData ∧
    isOkResult (predict_exponential_smoothing
      (add_data_point PredictionEngineState.init "m" 5 0 100) "m" 3 (1 / 2)).2 = true ∧
    ((predict_exponential_smoothing
        (add_data_point PredictionEngineState.init "m" 5 0 100) "m" 3 (1 / 2)).2
      = .ok [{ timestamp := 60, value := 5, confidence := 14 / 15,
               lower_bound := 9 / 2, upper_bound := 11 / 2 },
             { timestamp := 120, value := 5, confidence := 11 / 12,
               lower_bound := 9 / 2, upper_bound := 11 / 2 },
             { timestamp := 180, value := 5, confidence := 9 / 10,
               lower_bound := 9 / 2, upper_bound := 11 / 2 }]) ∧
    ∀ p ∈ [({ timestamp := 60, value := 5, confidence := 14 / 15,
              lower_bound := 9 / 2, upper_bound := 11 / 2 } : PredictionPoint),
           { timestamp := 120, value := 5, confidence := 11 / 12,
             lower_bound := 9 / 2, upper_bound := 11 / 2 },
           { timestamp := 180, value := 5, confidence := 9 / 10,
             lower_bound := 9 / 2, upper_bound := 11 / 2 }],
      p.value = 5 ∧ p.lower_bound = 5 * (9 / 10) ∧ p.upper_bound = 5 * (11 / 10) := by
  have hok : (predict_exponential_smoothing
      (add_data_point PredictionEngineState.init "m" 5 0 100) "m" 3 (1 / 2)).2
      = .ok [{ timestamp := 60, value := 5, confidence := 14 / 15,
               lower_bound := 9 / 2, upper_bound := 11 / 2 },
             { timestamp := 120, value := 5, confidence := 11 / 12,
               lower_bound := 9 / 2, upper_bound := 11 / 2 },
             { timestamp := 180, value := 5, confidence := 9 / 10,
               lower_bound := 9 / 2, upper_bound := 11 / 2 }] := by
    simp only [predict_exponential_smoothing, add_data_point, PredictionEngineState.init,
      TimeSeriesData.new, TimeSeriesData.add_point]
    norm_num [calculate_confidence, List.range_succ]
  refine ⟨((C5_minimum_samples PredictionEngineState.init "m" 3 0 (1 / 2)).1
            PredictionReachable.init rfl).1,
          ((C5_minimum_samples PredictionEngineState.init "m" 3 0 (1 / 2)).1
            PredictionReachable.init rfl).2,
          (C5_minimum_samples (add_data_point PredictionEngineState.init "m" 5 0 100)
            "m" 3 0 (1 / 2)).2.1 ⟨[5], [0], 100⟩ (by decide) (by decide) (by decide) rfl,
          (C5_minimum_samples (add_data_point PredictionEngineState.init "m" 5 0 100)
            "m" 3 0 (1 / 2)).2.2.1 ⟨[5], [0], 100⟩ (by decide) (by decide),
          hok,
          ((C5_minimum_samples (add_data_point PredictionEngineState.init "m" 5 0 100)
            "m" 3 0 (1 / 2)).2.2.2 ⟨[5], [0], 100⟩ 5 (by decide) (by decide) _ hok).2⟩

/-- C6: after a first trend+seasonal forecast computed and cached for a
metric with no prior cache entry, a second call within the five minute
time-to-live and with no intervening insertion returns exactly the cached
points regardless of its steps_ahead argument; the cached points have the
first call's horizon. -/
theorem C6_cache_horizon_quirk (s : PredictionEngineState) (m : String)
    (k1 k2 : ℕ) (now1 now2 : ℤ) (pts : List PredictionPoint)
    (hnc : s.predictions m = none)
    (h1 : (predict_arima s m k1 now1).2 = .ok pts)
    (httl : now2 - now1 < 300) :
    (predict_arima (predict_arima s m k1 now1).1 m k2 now2).2 = .ok pts ∧
    pts.length = k1 := by
  rcases hts : s.time_series m with _ | ts
  · have herr : (predict_arima s m k1 now1).2 = .error .UnknownMetric := by
      simp [predict_arima, hnc, hts]
    rw [herr] at h1
    exact absurd h1 (by simp)
  · by_cases hlen : ts.values.length < 10
    · have herr : (predict_arima s m k1 now1).2 = .error .InsufficientData := by
        simp [predict_arima, hnc, hts, hlen]
      rw [herr] at h1
      exact absurd h1 (by simp)
    · have h2 : (predict_arima s m k1 now1).2 = .ok (arima_forecast ts k1) := by
        simp [predict_arima, hnc, hts, hlen]
      have hpts : pts = arima_forecast ts k1 := by
        rw [h2] at h1
        exact (Except.ok.inj h1).symm
      have hstate : (predict_arima s m k1 now1).1 =
          { s with predictions := fun m2 =>
              if m2 = m then some ⟨arima_forecast ts k1, now1, 300⟩
              else s.predictions m2 } := by
        simp [predict_arima, hnc, hts, hlen]
      constructor
      · rw [hstate]
        have hvalid : (CachedPrediction.mk (arima_forecast ts k1) now1 300).is_valid
            now2 = true := by
          simp only [CachedPrediction.is_valid]
          simpa using httl
        simp [predict_arima, hvalid, hpts]
      · rw [hpts]
        simp [arima_forecast]

/-- Witness for C6: ten equal points for metric m, first forecast at one
step, second call fifty seconds later asking for seven steps still returns
the cached single point. -/
theorem C6_cache_horizon_quirk_witness :
    (predict_arima (predict_arima
      (PredictionEngineState.mk
        (fun m2 => if m2 = "m" then
          some ⟨[5, 5, 5, 5, 5, 5, 5, 5, 5, 5],
                [0, 60, 120, 180, 240, 300, 360, 420, 480, 540], 100⟩
          else none)
        (fun _ => none))
      "m" 1 1000).1 "m" 7 1050).2
      = .ok [{ timestamp := 600, value := 5, confidence := 9 / 10,
               lower_bound := 99 / 20, upper_bound := 101 / 20 }] ∧
    ([({ timestamp := 600, value := 5, confidence := 9 / 10,
         lower_bound := 99 / 20, upper_bound := 101 / 20 } : PredictionPoint)]).length
      = 1 :=
  C6_cache_horizon_quirk
    (PredictionEngineState.mk
      (fun m2 => if m2 = "m" then
        some ⟨[5, 5, 5, 5, 5, 5, 5, 5, 5, 5],
              [0, 60, 120, 180, 240, 300, 360, 420, 480, 540], 100⟩
        else none)
      (fun _ => none))
    "m" 1 7 1000 1050
    [{ timestamp := 600, value := 5, confidence := 9 / 10,
       lower_bound := 99 / 20, upper_bound := 101 / 20 }]
    rfl
    (by
      simp only [predict_arima, arima_forecast]
      norm_num [calculate_trend, calculate_seasonality, calculate_confidence,
        List.range_succ, List.enum, List.enumFrom])
    (by decide)

/-- C10: the exponential smoothing forecast neither reads nor writes the
prediction cache: the engine state (hence the cached-predictions map) is
unchanged, and the forecast output depends only on the time-series
histories, so it agrees between any two states with the same histories
regardless of their caches. -/
theorem C10_smoothing_cache_frame (s s2 : PredictionEngineState) (m : String)
    (k : ℕ) (alpha : ℚ) (h : s2.time_series = s.time_series) :
    (predict_exponential_smoothing s m k alpha).1 = s ∧
    (predict_exponential_smoothing s m k alpha).1.predictions = s.predictions ∧
    (predict_exponential_smoothing s2 m k alpha).2
      = (predict_exponential_smoothing s m k alpha).2 := by
  refine ⟨smoothing_fst s m k alpha, by rw [smoothing_fst], ?_⟩
  have hm : s2.time_series m = s.time_series m := congrFun h m
  rcases hts : s.time_series m with _ | ts
  · simp [predict_exponential_smoothing, hts, hm.trans hts]
  · rcases hv : ts.values with _ | ⟨v0, r⟩ <;>
      simp [predict_exponential_smoothing, hts, hm.trans hts, hv]

/-- Witness for C10: a state with an empty history map and a state that
additionally carries a cache entry produce identical smoothing results and
the call leaves the first state unchanged. -/
theorem C10_smoothing_cache_frame_witness :
    (predict_exponential_smoothing PredictionEngineState.init "m" 2 (1 / 2)).1
      = PredictionEngineState.init ∧
    (predict_exponential_smoothing PredictionEngineState.init "m" 2 (1 / 2)).1.predictions
      = PredictionEngineState.init.predictions ∧
    (predict_exponential_smoothing
      (PredictionEngineState.mk PredictionEngineState.init.time_series
        (fun _ => some ⟨[], 0, 300⟩)) "m" 2 (1 / 2)).2
      = (predict_exponential_smoothing PredictionEngineState.init "m" 2 (1 / 2)).2 :=
  C10_smoothing_cache_frame PredictionEngineState.init
    (PredictionEngineState.mk PredictionEngineState.init.time_series
      (fun _ => some ⟨[], 0, 300⟩)) "m" 2 (1 / 2) rfl

/-! ### Anomaly detector lemmas and claims C3, C1 -/

lemma check_anomaly_fst (m : String) (b : MetricBaseline) (v : ℚ) (t : ℤ)
    (sens : ℚ) : (check_anomaly m b v t sens).1 = b.add_value v t := by
  simp only [check_anomaly]
  split
  · rfl
  · split <;> rfl

lemma check_anomaly_none_of_short (m : String) (b : MetricBaseline) (v : ℚ) (t : ℤ)
    (sens : ℚ) (hlen : (b.add_value v t).values.length < 10) :
    (check_anomaly m b v t sens).2 = none := by
  simp only [check_anomaly]
  rw [if_pos hlen]

lemma check_anomaly_main (m : String) (b : MetricBaseline) (v : ℚ) (t : ℤ) (sens : ℚ)
    (hlen : ¬ (b.add_value v t).values.length < 10) :
    check_anomaly m b v t sens =
      ((b.add_value v t),
        if ((get_threshold_for_sensitivity sens : ℚ) : ℝ) <
            |(v : ℝ) - (((b.add_value v t).calculate_mean : ℚ) : ℝ)| /
              (b.add_value v t).calculate_stddev (b.add_value v t).calculate_mean
        then some { metric_name := m, timestamp := t, value := v,
                    expected_value := (b.add_value v t).calculate_mean,
                    deviation := |(v : ℝ) - (((b.add_value v t).calculate_mean : ℚ) : ℝ)| /
                      (b.add_value v t).calculate_stddev (b.add_value v t).calculate_mean,
                    anomaly_type := classify_anomaly v (b.add_value v t).calculate_mean
                      (b.add_value v t),
                    severity := calculate_severity
                      (|(v : ℝ) - (((b.add_value v t).calculate_mean : ℚ) : ℝ)| /
                        (b.add_value v t).calculate_stddev (b.add_value v t).calculate_mean) }
        else none) := by
  simp only [check_anomaly]
  rw [if_neg hlen]
  split_ifs <;> rfl

/-- C3: check inserts the value into the baseline, stays silent while the
window holds fewer than ten points, and once warmed up reports an anomaly
exactly when the z-score (absolute deviation from the window mean divided
by the Bessel-corrected sample standard deviation floored at 1/10000)
exceeds the threshold 3 minus twice the sensitivity, which lies in [1, 3]
for sensitivity in [0, 1]; a reported anomaly carries the observed value,
the window mean as expected value, the z-score as deviation, and the
severity ladder Critical above 5, High above 4, Medium above 3, else
Low. -/
theorem C3_check_zscore_detection (m : String) (b : MetricBaseline) (v : ℚ) (t : ℤ)
    (sens : ℚ) (hs0 : 0 ≤ sens) (hs1 : sens ≤ 1) :
    (check_anomaly m b v t sens).1 = b.add_value v t ∧
    ((b.add_value v t).values.length < 10 → (check_anomaly m b v t sens).2 = none) ∧
    (10 ≤ (b.add_value v t).values.length →
      (1 ≤ get_threshold_for_sensitivity sens ∧ get_threshold_for_sensitivity sens ≤ 3) ∧
      (b.add_value v t).calculate_mean
        = (b.add_value v t).values.sum / (((b.add_value v t).values.length : ℕ) : ℚ) ∧
      (b.add_value v t).calculate_stddev (b.add_value v t).calculate_mean
        = max (Real.sqrt (((((b.add_value v t).values.map
              (fun x => (x - (b.add_value v t).calculate_mean)
                * (x - (b.add_value v t).calculate_mean))).sum
              / (((b.add_value v t).values.length - 1 : ℕ) : ℚ)) : ℚ) : ℝ)) (1 / 10000) ∧
      (((check_anomaly m b v t sens).2).isSome = true ↔
        ((get_threshold_for_sensitivity sens : ℚ) : ℝ) <
          |(v : ℝ) - (((b.add_value v t).calculate_mean : ℚ) : ℝ)| /
            (b.add_value v t).calculate_stddev (b.add_value v t).calculate_mean) ∧
      (∀ a, (check_anomaly m b v t sens).2 = some a →
        a.value = v ∧
        a.expected_value = (b.add_value v t).calculate_mean ∧
        a.deviation = |(v : ℝ) - (((b.add_value v t).calculate_mean : ℚ) : ℝ)| /
          (b.add_value v t).calculate_stddev (b.add_value v t).calculate_mean ∧
        a.severity = (if 5 < a.deviation then AnomalySeverity.Critical
          else if 4 < a.deviation then AnomalySeverity.High
          else if 3 < a.deviation then AnomalySeverity.Medium
          else AnomalySeverity.Low))) := by
  refine ⟨check_anomaly_fst m b v t sens, ?_, ?_⟩
  · exact check_anomaly_none_of_short m b v t sens
  · intro hlen10
    have hlen : ¬ (b.add_value v t).values.length < 10 := by omega
    have hne : (b.add_value v t).values ≠ [] := by
      intro hnil
      rw [hnil] at hlen10
      simp at hlen10
    refine ⟨?_, ?_, ?_, ?_, ?_⟩
    · constructor <;> (simp only [get_threshold_for_sensitivity]; linarith)
    · simp [MetricBaseline.calculate_mean, hne]
    · simp only [MetricBaseline.calculate_stddev]
      rw [if_neg (by omega)]
    · rw [check_anomaly_main m b v t sens hlen]
      by_cases hcond : ((get_threshold_for_sensitivity sens : ℚ) : ℝ) <
          |(v : ℝ) - (((b.add_value v t).calculate_mean : ℚ) : ℝ)| /
            (b.add_value v t).calculate_stddev (b.add_value v t).calculate_mean
      · rw [if_pos hcond]
        simpa using hcond
      · rw [if_neg hcond]
        simpa using hcond
    · intro a ha
      rw [check_anomaly_main m b v t sens hlen] at ha
      by_cases hcond : ((get_threshold_for_sensitivity sens : ℚ) : ℝ) <
          |(v : ℝ) - (((b.add_value v t).calculate_mean : ℚ) : ℝ)| /
            (b.add_value v t).calculate_stddev (b.add_value v t).calculate_mean
      · rw [if_pos hcond] at ha
        simp only at ha
        obtain rfl := (Option.some_injective _ ha).symm
        refine ⟨rfl, rfl, rfl, ?_⟩
        simp only [calculate_severity]
      · rw [if_neg hcond] at ha
        exact absurd ha (by simp)

lemma classify_after_add (b : MetricBaseline) (v : ℚ) (t : ℤ) (mean2 : ℚ) :
    classify_anomaly v mean2 (b.add_value v t) =
      (if v > mean2 then (if v < 0 then AnomalyType.Spike else AnomalyType.HighValue)
       else (if v < 0 then AnomalyType.Drop else AnomalyType.LowValue)) := by
  have hlast : (b.add_value v t).values.getLast? = some v := by
    simp only [MetricBaseline.add_value]
    split <;> simp
  simp only [classify_anomaly, hlast]
  refine if_congr Iff.rfl ?_ ?_
  · exact if_congr (by constructor <;> intro h <;> nlinarith) rfl rfl
  · exact if_congr (by constructor <;> intro h <;> nlinarith) rfl rfl

/-- C1 (amended): because check inserts the value before classifying, the
classifier compares the new value with itself rather than with the value
that preceded the insertion: a reported anomaly above the mean is a Spike
exactly when the value exceeds one and a half times itself, which happens
only for negative values, and otherwise HighValue; below the mean it is a
Drop exactly when the value is below half of itself, again only for
negative values, and otherwise LowValue.  In particular a positive value
such as 250 over baseline [100]x20 is classified HighValue, not Spike. -/
theorem C1_classification_rule (m : String) (b : MetricBaseline) (v : ℚ) (t : ℤ)
    (sens : ℚ) (a : Anomaly) (h : (check_anomaly m b v t sens).2 = some a) :
    a.anomaly_type =
      (if v > (b.add_value v t).calculate_mean then
        (if v < 0 then AnomalyType.Spike else AnomalyType.HighValue)
       else (if v < 0 then AnomalyType.Drop else AnomalyType.LowValue)) := by
  by_cases hlen : (b.add_value v t).values.length < 10
  · rw [check_anomaly_none_of_short m b v t sens hlen] at h
    exact absurd h (by simp)
  · rw [check_anomaly_main m b v t sens hlen] at h
    by_cases hcond : ((get_threshold_for_sensitivity sens : ℚ) : ℝ) <
        |(v : ℝ) - (((b.add_value v t).calculate_mean : ℚ) : ℝ)| /
          (b.add_value v t).calculate_stddev (b.add_value v t).calculate_mean
    · rw [if_pos hcond] at h
      simp only at h
      obtain rfl := (Option.some_injective _ h).symm
      exact classify_after_add b v t (b.add_value v t).calculate_mean
    · rw [if_neg hcond] at h
      exact absurd h (by simp)

/-! ### Concrete anomaly evaluations for the C1 and C3 artifacts -/

lemma b9_add :
    (MetricBaseline.mk [3, 3, 3, -3, -3, -3, 0, 0, 0]
      [0, 1, 2, 3, 4, 5, 6, 7, 8] 100).add_value 10 9
      = MetricBaseline.mk [3, 3, 3, -3, -3, -3, 0, 0, 0, 10]
          [0, 1, 2, 3, 4, 5, 6, 7, 8, 9] 100 := by
  simp [MetricBaseline.add_value]

lemma b9_mean :
    ((MetricBaseline.mk [3, 3, 3, -3, -3, -3, 0, 0, 0]
      [0, 1, 2, 3, 4, 5, 6, 7, 8] 100).add_value 10 9).calculate_mean = 1 := by
  rw [b9_add]
  norm_num [MetricBaseline.calculate_mean]

lemma b9_stddev :
    ((MetricBaseline.mk [3, 3, 3, -3, -3, -3, 0, 0, 0]
      [0, 1, 2, 3, 4, 5, 6, 7, 8] 100).add_value 10 9).calculate_stddev
      (((MetricBaseline.mk [3, 3, 3, -3, -3, -3, 0, 0, 0]
        [0, 1, 2, 3, 4, 5, 6, 7, 8] 100).add_value 10 9).calculate_mean) = 4 := by
  rw [b9_mean, b9_add]
  simp only [MetricBaseline.calculate_stddev]
  rw [if_neg (by norm_num)]
  have hvar : ((([3, 3, 3, -3, -3, -3, 0, 0, 0, 10] : List ℚ).map
      (fun x => (x - 1) * (x - 1))).sum
      / ((([3, 3, 3, -3, -3, -3, 0, 0, 0, 10] : List ℚ).length - 1 : ℕ) : ℚ)) = 16 := by
    norm_num
  rw [hvar, show ((16 : ℚ) : ℝ) = (4 : ℝ) ^ 2 by norm_num,
    Real.sqrt_sq (by norm_num : (0 : ℝ) ≤ 4)]
  exact max_eq_left (by norm_num)

lemma check_b9 :
    check_anomaly "w" (MetricBaseline.mk [3, 3, 3, -3, -3, -3, 0, 0, 0]
      [0, 1, 2, 3, 4, 5, 6, 7, 8] 100) 10 9 1
      = (MetricBaseline.mk [3, 3, 3, -3, -3, -3, 0, 0, 0, 10]
          [0, 1, 2, 3, 4, 5, 6, 7, 8, 9] 100,
         some { metric_name := "w", timestamp := 9, value := 10, expected_value := 1,
                deviation := 9 / 4, anomaly_type := AnomalyType.HighValue,
                severity := AnomalySeverity.Low }) := by
  have hlen9 : ¬ ((MetricBaseline.mk [3, 3, 3, -3, -3, -3, 0, 0, 0]
      [0, 1, 2, 3, 4, 5, 6, 7, 8] 100).add_value 10 9).values.length < 10 := by
    rw [b9_add]
    norm_num
  rw [check_anomaly_main _ _ _ _ _ hlen9]
  rw [b9_stddev, b9_mean]
  have habs : |((10 : ℚ) : ℝ) - ((1 : ℚ) : ℝ)| / (4 : ℝ) = 9 / 4 := by
    norm_num
  rw [habs]
  rw [if_pos (by norm_num [get_threshold_for_sensitivity])]
  have hcls : classify_anomaly 10 1
      ((MetricBaseline.mk [3, 3, 3, -3, -3, -3, 0, 0, 0]
        [0, 1, 2, 3, 4, 5, 6, 7, 8] 100).add_value 10 9) = AnomalyType.HighValue := by
    rw [classify_after_add]
    rw [if_pos (by norm_num), if_neg (by norm_num)]
  have hsev : calculate_severity ((9 : ℝ) / 4) = AnomalySeverity.Low := by
    simp only [calculate_severity]
    rw [if_neg (by norm_num), if_neg (by norm_num), if_neg (by norm_num)]
  rw [hcls, hsev, b9_add]

/-- Witness for C1 at a window of nine mixed values and a new value 10
flagged with z-score 9/4 over threshold 1: the anomaly is classified
HighValue, matching the amended rule. -/
theorem C1_classification_rule_witness :
    (check_anomaly "w" (MetricBaseline.mk [3, 3, 3, -3, -3, -3, 0, 0, 0]
      [0, 1, 2, 3, 4, 5, 6, 7, 8] 100) 10 9 1).2
      = some { metric_name := "w", timestamp := 9, value := 10, expected_value := 1,
               deviation := 9 / 4, anomaly_type := AnomalyType.HighValue,
               severity := AnomalySeverity.Low } ∧
    ({ metric_name := "w", timestamp := 9, value := 10, expected_value := 1,
       deviation := 9 / 4, anomaly_type := AnomalyType.HighValue,
       severity := AnomalySeverity.Low } : Anomaly).anomaly_type
      = (if (10 : ℚ) > ((MetricBaseline.mk [3, 3, 3, -3, -3, -3, 0, 0, 0]
            [0, 1, 2, 3, 4, 5, 6, 7, 8] 100).add_value 10 9).calculate_mean then
          (if (10 : ℚ) < 0 then AnomalyType.Spike else AnomalyType.HighValue)
         else (if (10 : ℚ) < 0 then AnomalyType.Drop else AnomalyType.LowValue)) :=
  ⟨by rw [check_b9],
   C1_classification_rule "w" (MetricBaseline.mk [3, 3, 3, -3, -3, -3, 0, 0, 0]
     [0, 1, 2, 3, 4, 5, 6, 7, 8] 100) 10 9 1 _ (by rw [check_b9])⟩

lemma b20_add :
    (MetricBaseline.mk (List.replicate 20 100) (List.replicate 20 0) 100).add_value 250 20
      = MetricBaseline.mk (List.replicate 20 (100 : ℚ) ++ [250])
          (List.replicate 20 (0 : ℤ) ++ [20]) 100 := by
  simp [MetricBaseline.add_value]

lemma b20_mean :
    ((MetricBaseline.mk (List.replicate 20 100)
      (List.replicate 20 0) 100).add_value 250 20).calculate_mean = 750 / 7 := by
  rw [b20_add]
  norm_num [MetricBaseline.calculate_mean, List.sum_append, List.sum_replicate,
    nsmul_eq_mul]

lemma b20_stddev :
    ((MetricBaseline.mk (List.replicate 20 100)
      (List.replicate 20 0) 100).add_value 250 20).calculate_stddev
      (((MetricBaseline.mk (List.replicate 20 100)
        (List.replicate 20 0) 100).add_value 250 20).calculate_mean)
      = Real.sqrt (52500 / 49) := by
  rw [b20_mean, b20_add]
  simp only [MetricBaseline.calculate_stddev]
  rw [if_neg (by simp)]
  have hvar : (((List.replicate 20 (100 : ℚ) ++ [250]).map
      (fun x => (x - 750 / 7) * (x - 750 / 7))).sum
      / (((List.replicate 20 (100 : ℚ) ++ [250]).length - 1 : ℕ) : ℚ)) = 52500 / 49 := by
    norm_num [List.map_append, List.map_replicate, List.sum_append, List.sum_replicate,
      nsmul_eq_mul]
  rw [hvar, show ((52500 / 49 : ℚ) : ℝ) = (52500 / 49 : ℝ) by norm_num]
  refine max_eq_left ?_
  have h1 : (1 : ℝ) ≤ Real.sqrt (52500 / 49) := by
    rw [show (1 : ℝ) = Real.sqrt 1 from Real.sqrt_one.symm]
    exact Real.sqrt_le_sqrt (by norm_num)
  linarith

/-- Counterexample for C1: with baseline [100] repeated twenty times,
sensitivity 1 and new value 250, check flags an anomaly but classifies it
HighValue, not Spike, because the classifier sees 250 itself as the last
window element and 250 does not exceed 1.5 times 250. -/
theorem C1_spike_counterexample :
    Option.map Anomaly.anomaly_type
      (check_anomaly "latency"
        (MetricBaseline.mk (List.replicate 20 100) (List.replicate 20 0) 100) 250 20 1).2
      = some AnomalyType.HighValue ∧
    AnomalyType.HighValue ≠ AnomalyType.Spike := by
  constructor
  · have hlen20 : ¬ ((MetricBaseline.mk (List.replicate 20 100)
        (List.replicate 20 0) 100).add_value 250 20).values.length < 10 := by
      rw [b20_add]
      simp
    rw [check_anomaly_main _ _ _ _ _ hlen20]
    rw [b20_stddev, b20_mean]
    have hsqrt_pos : 0 < Real.sqrt (52500 / 49) := Real.sqrt_pos.mpr (by norm_num)
    have hcond : ((get_threshold_for_sensitivity 1 : ℚ) : ℝ) <
        |((250 : ℚ) : ℝ) - ((750 / 7 : ℚ) : ℝ)| / Real.sqrt (52500 / 49) := by
      have hc1 : ((get_threshold_for_sensitivity 1 : ℚ) : ℝ) = 1 := by
        norm_num [get_threshold_for_sensitivity]
      have habs : |((250 : ℚ) : ℝ) - ((750 / 7 : ℚ) : ℝ)| = 1000 / 7 := by
        rw [show ((750 / 7 : ℚ) : ℝ) = (750 / 7 : ℝ) by norm_num]
        rw [show ((250 : ℚ) : ℝ) = (250 : ℝ) by norm_num]
        rw [show (250 : ℝ) - 750 / 7 = 1000 / 7 by norm_num]
        exact abs_of_nonneg (by norm_num)
      have hlt : Real.sqrt (52500 / 49) < 1000 / 7 :=
        (Real.sqrt_lt' (by norm_num : (0 : ℝ) < 1000 / 7)).mpr (by norm_num)
      rw [hc1, habs, one_lt_div hsqrt_pos]
      exact hlt
    rw [if_pos hcond]
    have hcls : classify_anomaly 250 (750 / 7)
        ((MetricBaseline.mk (List.replicate 20 100)
          (List.replicate 20 0) 100).add_value 250 20) = AnomalyType.HighValue := by
      rw [classify_after_add]
      rw [if_pos (by norm_num), if_neg (by norm_num)]
    simp only [Option.map_some', hcls]
  · simp

/-- Witness for C3 at the same nine-value window, inserting 10 with
sensitivity 1. -/
theorem C3_check_zscore_detection_witness :
    (0 : ℚ) ≤ 1 ∧ (1 : ℚ) ≤ 1 ∧
    ((check_anomaly "w" (MetricBaseline.mk [3, 3, 3, -3, -3, -3, 0, 0, 0]
        [0, 1, 2, 3, 4, 5, 6, 7, 8] 100) 10 9 1).1
      = (MetricBaseline.mk [3, 3, 3, -3, -3, -3, 0, 0, 0]
          [0, 1, 2, 3, 4, 5, 6, 7, 8] 100).add_value 10 9 ∧
    (((MetricBaseline.mk [3, 3, 3, -3, -3, -3, 0, 0, 0]
        [0, 1, 2, 3, 4, 5, 6, 7, 8] 100).add_value 10 9).values.length < 10 →
      (check_anomaly "w" (MetricBaseline.mk [3, 3, 3, -3, -3, -3, 0, 0, 0]
        [0, 1, 2, 3, 4, 5, 6, 7, 8] 100) 10 9 1).2 = none) ∧
    (10 ≤ ((MetricBaseline.mk [3, 3, 3, -3, -3, -3, 0, 0, 0]
        [0, 1, 2, 3, 4, 5, 6, 7, 8] 100).add_value 10 9).values.length →
      (1 ≤ get_threshold_for_sensitivity 1 ∧ get_threshold_for_sensitivity 1 ≤ 3) ∧
      ((MetricBaseline.mk [3, 3, 3, -3, -3, -3, 0, 0, 0]
          [0, 1, 2, 3, 4, 5, 6, 7, 8] 100).add_value 10 9).calculate_mean
        = ((MetricBaseline.mk [3, 3, 3, -3, -3, -3, 0, 0, 0]
            [0, 1, 2, 3, 4, 5, 6, 7, 8] 100).add_value 10 9).values.sum
          / (((((MetricBaseline.mk [3, 3, 3, -3, -3, -3, 0, 0, 0]
              [0, 1, 2, 3, 4, 5, 6, 7, 8] 100).add_value 10 9).values.length : ℕ)) : ℚ) ∧
      ((MetricBaseline.mk [3, 3, 3, -3, -3, -3, 0, 0, 0]
          [0, 1, 2, 3, 4, 5, 6, 7, 8] 100).add_value 10 9).calculate_stddev
        (((MetricBaseline.mk [3, 3, 3, -3, -3, -3, 0, 0, 0]
          [0, 1, 2, 3, 4, 5, 6, 7, 8] 100).add_value 10 9).calculate_mean)
        = max (Real.sqrt ((((((MetricBaseline.mk [3, 3, 3, -3, -3, -3, 0, 0, 0]
              [0, 1, 2, 3, 4, 5, 6, 7, 8] 100).add_value 10 9).values.map
              (fun x => (x - ((MetricBaseline.mk [3, 3, 3, -3, -3, -3, 0, 0, 0]
                [0, 1, 2, 3, 4, 5, 6, 7, 8] 100).add_value 10 9).calculate_mean)
                * (x - ((MetricBaseline.mk [3, 3, 3, -3, -3, -3, 0, 0, 0]
                  [0, 1, 2, 3, 4, 5, 6, 7, 8] 100).add_value 10 9).calculate_mean))).sum
              / ((((MetricBaseline.mk [3, 3, 3, -3, -3, -3, 0, 0, 0]
                [0, 1, 2, 3, 4, 5, 6, 7, 8] 100).add_value 10 9).values.length - 1 : ℕ) : ℚ))
              : ℚ) : ℝ)) (1 / 10000) ∧
      (((check_anomaly "w" (MetricBaseline.mk [3, 3, 3, -3, -3, -3, 0, 0, 0]
          [0, 1, 2, 3, 4, 5, 6, 7, 8] 100) 10 9 1).2).isSome = true ↔
        ((get_threshold_for_sensitivity 1 : ℚ) : ℝ) <
          |((10 : ℚ) : ℝ) - ((((MetricBaseline.mk [3, 3, 3, -3, -3, -3, 0, 0, 0]
              [0, 1, 2, 3, 4, 5, 6, 7, 8] 100).add_value 10 9).calculate_mean : ℚ) : ℝ)| /
            ((MetricBaseline.mk [3, 3, 3, -3, -3, -3, 0, 0, 0]
              [0, 1, 2, 3, 4, 5, 6, 7, 8] 100).add_value 10 9).calculate_stddev
              (((MetricBaseline.mk [3, 3, 3, -3, -3, -3, 0, 0, 0]
                [0, 1, 2, 3, 4, 5, 6, 7, 8] 100).add_value 10 9).calculate_mean)) ∧
      (∀ a, (check_anomaly "w" (MetricBaseline.mk [3, 3, 3, -3, -3, -3, 0, 0, 0]
          [0, 1, 2, 3, 4, 5, 6, 7, 8] 100) 10 9 1).2 = some a →
        a.value = 10 ∧
        a.expected_value = ((MetricBaseline.mk [3, 3, 3, -3, -3, -3, 0, 0, 0]
          [0, 1, 2, 3, 4, 5, 6, 7, 8] 100).add_value 10 9).calculate_mean ∧
        a.deviation = |((10 : ℚ) : ℝ) - ((((MetricBaseline.mk [3, 3, 3, -3, -3, -3, 0, 0, 0]
            [0, 1, 2, 3, 4, 5, 6, 7, 8] 100).add_value 10 9).calculate_mean : ℚ) : ℝ)| /
          ((MetricBaseline.mk [3, 3, 3, -3, -3, -3, 0, 0, 0]
            [0, 1, 2, 3, 4, 5, 6, 7, 8] 100).add_value 10 9).calculate_stddev
            (((MetricBaseline.mk [3, 3, 3, -3, -3, -3, 0, 0, 0]
              [0, 1, 2, 3, 4, 5, 6, 7, 8] 100).add_value 10 9).calculate_mean) ∧
        a.severity = (if 5 < a.deviation then AnomalySeverity.Critical
          else if 4 < a.deviation then AnomalySeverity.High
          else if 3 < a.deviation then AnomalySeverity.Medium
          else AnomalySeverity.Low)))) :=
  ⟨by norm_num, by norm_num,
   C3_check_zscore_detection "w" (MetricBaseline.mk [3, 3, 3, -3, -3, -3, 0, 0, 0]
     [0, 1, 2, 3, 4, 5, 6, 7, 8] 100) 10 9 1 (by norm_num) (by norm_num)⟩

end AnalyticsHub
